import Mathlib

/-!
Shallow embedding of `src/ploomber/cli/cloud.py`: a thin client for a remote
pipeline-tracking HTTP API.  External collaborators (the configuration-file
layer, `humanize`/`datetime` formatting, Python float parsing, `parse_dag`
and the network itself) are modelled as explicit parameters or oracles;
the module-level mutable `headers` dictionary is threaded as explicit state.
Python optional string arguments are `Option String` (with `none` playing the
role of `None`); Python truthiness of such a value is `truthy` below.
-/

namespace Cloud

/-- Python truthiness of an optional string: `None` and `""` are falsy. -/
def truthy : Option String → Bool
  | none => false
  | some s => !(s == "")

/-- `"{}".format(x)` on an optional string: `None` prints as `"None"`. -/
def fmtOpt : Option String → String
  | none => "None"
  | some s => s

/-- A value stored in an HTTP header dictionary (the code stores strings
and, for `verbose`, the boolean `True`). -/
inductive HVal where
  | str (s : String)
  | bool (b : Bool)
deriving DecidableEq, Repr

/-- A Python dict with string keys, as an insertion-ordered association list. -/
abbrev Headers := List (String × HVal)

/-- Python dict assignment `d[k] = v`: update in place if the key exists
(keeping its position), otherwise append at the end. -/
def dictInsert (k : String) (v : HVal) : Headers → Headers
  | [] => [(k, v)]
  | (k', v') :: t => if k' = k then (k, v) :: t else (k', v') :: dictInsert k v t

/-- Python dict lookup `d.get(k)`. -/
def lookupH (k : String) : Headers → Option HVal
  | [] => none
  | (k', v) :: t => if k' = k then some v else lookupH k t

/-- `CLOUD_APP_URL` constant. -/
def CLOUD_APP_URL : String := "ggeheljnx2.execute-api.us-east-1.amazonaws.com"

/-- `PIPELINES_RESOURCE` constant. -/
def PIPELINES_RESOURCE : String := "/prod/pipelines"

/-- The module-level `headers` dictionary as initialized at import time. -/
def initial_headers : Headers := [("Content-type", HVal.str "application/json")]

/-- Is `sub` an infix of `s`?  Models Python's `sub in s`. -/
def listInfix (needle : List Char) : List Char → Bool
  | [] => needle.isEmpty
  | c :: t => needle.isPrefixOf (c :: t) || listInfix needle t

/-- Models Python's `sub in s` on strings. -/
def strContains (sub s : String) : Bool := listInfix sub.data s.data

/-- A Python exception, abstracted to its type name and the text of
`str(e.args)`. -/
structure PyExc where
  name : String
  argsStr : String
deriving DecidableEq, Repr

/-- Outcome of running a piece of Python code: normal return or raise. -/
inductive PyResult (α : Type) where
  | ret (v : α)
  | raise (e : PyExc)
deriving DecidableEq, Repr

/-- One HTTP request as handed to `conn.request`. -/
structure Request where
  method : String
  url : String
  resource : String
  headers : Headers
  body : Option (List (String × String))
deriving DecidableEq, Repr

/-! ### Key management -/

/-- Result of `_set_key`: configuration writes performed, whether a warning
was emitted, whether the confirmation message was printed. -/
structure SKOut where
  writes : List (List (String × String))
  warned : Bool
  confirmed : Bool
deriving DecidableEq, Repr

/-- `_set_key(user_key)`: warns and writes nothing unless the key is truthy
and exactly 22 characters; otherwise persists `{cloud_key: user_key}` and
confirms.  The `update_conf_file` collaborator is recorded as a write. -/
def set_key_impl : Option String → SKOut
  | none => ⟨[], true, false⟩
  | some k =>
    if (k == "") || k.length ≠ 22 then ⟨[], true, false⟩
    else ⟨[[("cloud_key", k)]], false, true⟩

/-! ### Timestamp humanization -/

/-- A JSON scalar as it appears in the `updated` field of a pipeline record
(the remote stores seconds since epoch, numeric-or-string, or null). -/
inductive JVal where
  | null
  | num (n : Int)
  | str (s : String)
deriving DecidableEq, Repr

/-- `get_last_run(timestamp)`.  `parseNum` models Python `float` on a string
(`none` when `float` raises `ValueError`, in which case the raw value is
returned); `naturaltime` and `strftime` model the external `humanize` and
`datetime` formatting of the parsed timestamp. -/
def get_last_run (parseNum : String → Option Int)
    (naturaltime strftime : Int → String) : JVal → JVal
  | .null => .str "Has not been run"
  | .num n => .str (naturaltime n ++ " (" ++ strftime n ++ ")")
  | .str s =>
    match parseNum s with
    | some n => .str (naturaltime n ++ " (" ++ strftime n ++ ")")
    | none => .str s

/-! ### Pipeline fetch -/

/-- A pipeline record from a parsed JSON response: its `updated` field plus
the remaining fields, untouched by this module. -/
structure PRec where
  updated : JVal
  rest : List (String × JVal)
deriving DecidableEq, Repr

/-- The network's behaviour for one GET: an exception raised while issuing
the request or reading the response, a body that fails JSON decoding, or a
successfully parsed list of records. -/
inductive GetResponse where
  | transport (e : PyExc)
  | badJson (raw : String)
  | records (rs : List PRec)
deriving Repr

/-- `get_pipeline`'s returned value: a plain message string or the
post-processed record list. -/
inductive GPRet where
  | msg (s : String)
  | pipelines (rs : List PRec)
deriving DecidableEq, Repr

/-- Observable outcome of one `get_pipeline` call. -/
structure GPOut where
  result : PyResult GPRet
  requests : List Request
  opened : Bool
  closed : Bool
deriving Repr

/-- `get_pipeline(pipeline_id=None, verbose=None)`.  `key` is what `get_key()`
returns.  Note the `headers` dict here is a fresh local one, not the
module-level dictionary.  Only `JSONDecodeError` is caught; any other
exception from the request propagates.  The connection is closed on every
path that opened it (`finally`). -/
def get_pipeline_impl (parseNum : String → Option Int)
    (naturaltime strftime : Int → String)
    (key pipeline_id : Option String) (verbose : Option Bool)
    (resp : GetResponse) : GPOut :=
  if ¬ truthy key then
    ⟨.ret (.msg ("No cloud API Key was found: " ++ fmtOpt key)), [], false, false⟩
  else
    let hs0 : Headers := [("api_key", HVal.str (fmtOpt key))]
    let hs1 := if truthy pipeline_id then
        dictInsert "pipeline_id" (HVal.str (fmtOpt pipeline_id)) hs0 else hs0
    let hs2 := match verbose with
      | some true => dictInsert "verbose" (HVal.bool true) hs1
      | _ => hs1
    let req : Request := ⟨"GET", CLOUD_APP_URL, PIPELINES_RESOURCE, hs2, none⟩
    match resp with
    | .transport e => ⟨.raise e, [req], true, true⟩
    | .badJson raw => ⟨.ret (.msg ("Issue fetching pipeline " ++ raw)), [req], true, true⟩
    | .records rs =>
      ⟨.ret (.pipelines (rs.map fun r =>
          { r with updated := get_last_run parseNum naturaltime strftime r.updated })),
       [req], true, true⟩

/-! ### Pipeline write -/

/-- Observable outcome of one `_write_pipeline` call: its (string) return
value, the module-level `headers` dictionary afterwards, the request handed
to the connection, and whether a connection was opened/closed. -/
structure WPOut where
  ret : String
  headers : Headers
  requests : List Request
  opened : Bool
  closed : Bool
deriving DecidableEq, Repr

/-- `_write_pipeline(pipeline_id, status, log, pipeline_name, dag)`.  `key` is
what `get_key()` returns, `st` the module-level `headers` dictionary on
entry, `net` the network's behaviour (response body or raised exception).
A parsed DAG is opaque here (its serialized form); `if dag:` is modelled as
presence.  All exceptions inside the `try` are caught and turned into the
`"Error fetching pipeline ..."` string; the connection always closes. -/
def write_pipeline_impl (key pipeline_id status log pipeline_name dag : Option String)
    (st : Headers) (net : Except PyExc String) : WPOut :=
  if ¬ truthy key then
    ⟨"No cloud API Key was found: " ++ fmtOpt key, st, [], false, false⟩
  else if ¬ truthy pipeline_id then
    ⟨"No input pipeline_id: " ++ fmtOpt key, st, [], false, false⟩
  else if ¬ truthy status then
    ⟨"No input pipeline status: " ++ fmtOpt key, st, [], false, false⟩
  else
    let st' := dictInsert "api_key" (HVal.str (fmtOpt key)) st
    let body : List (String × String) :=
      [("pipeline_id", fmtOpt pipeline_id), ("status", fmtOpt status)]
      ++ (if truthy pipeline_name then [("pipeline_name", fmtOpt pipeline_name)] else [])
      ++ (if truthy log then [("log", fmtOpt log)] else [])
      ++ (match dag with | some d => [("dag", d)] | none => [])
    let req : Request := ⟨"POST", CLOUD_APP_URL, PIPELINES_RESOURCE, st', some body⟩
    match net with
    | .ok content => ⟨content, st', [req], true, true⟩
    | .error e => ⟨"Error fetching pipeline " ++ e.argsStr, st', [req], true, true⟩

/-! ### Pipeline delete -/

/-- Observable outcome of one `delete_pipeline` call. -/
structure DPOut where
  ret : String
  headers : Headers
  requests : List Request
  opened : Bool
  closed : Bool
deriving DecidableEq, Repr

/-- `delete_pipeline(pipeline_id)`.  Mutates the module-level `headers`
dictionary (`api_key` and `pipeline_id` entries) before issuing the DELETE. -/
def delete_pipeline_impl (key pipeline_id : Option String)
    (st : Headers) (net : Except PyExc String) : DPOut :=
  if ¬ truthy key then
    ⟨"No cloud API Key was found: " ++ fmtOpt key, st, [], false, false⟩
  else if ¬ truthy pipeline_id then
    ⟨"No input pipeline_id: " ++ fmtOpt key, st, [], false, false⟩
  else
    let st1 := dictInsert "api_key" (HVal.str (fmtOpt key)) st
    let st2 := dictInsert "pipeline_id" (HVal.str (fmtOpt pipeline_id)) st1
    let req : Request := ⟨"DELETE", CLOUD_APP_URL, PIPELINES_RESOURCE, st2, none⟩
    match net with
    | .ok content => ⟨content, st2, [req], true, true⟩
    | .error e => ⟨"Issue deleting pipeline " ++ e.argsStr, st2, [req], true, true⟩

/-! ### Lifecycle decorator -/

/-- The arguments of one `_write_pipeline` call made by the wrapper. -/
structure WPCall where
  pipeline_id : Option String
  status : Option String
  log : Option String
  pipeline_name : Option String
  dag : Option String
deriving DecidableEq, Repr

/-- Observable outcome of one invocation of a `cloud_wrapper()`-wrapped
function: what the wrapper returns or raises, the write-pipeline calls it
made (in order, with their arguments), the warnings emitted, and the
module-level `headers` dictionary afterwards. -/
structure WrapOut (α : Type) where
  result : PyResult α
  calls : List WPCall
  warnings : List String
  headers : Headers
deriving Repr

/-- One run of the function returned by `cloud_wrapper(payload)(func)`.
`pid` is the freshly generated `str(uuid.uuid4())`; `funcRes` is the wrapped
function's behaviour on this invocation (when `payload` is true it received
the fresh accumulator dict first, which does not change what the wrapper
observes); `parse_dag` is the external DAG serializer; `key`/`st` feed the
embedded `_write_pipeline` calls, and `net1`/`net2` are the network's
behaviour for the first and second of them. -/
def cloud_wrapper_run {α : Type} (_payload : Bool) (pid : String)
    (funcRes : PyResult α) (parse_dag : α → String)
    (key : Option String) (st : Headers)
    (net1 net2 : Except PyExc String) : WrapOut α :=
  let startCall : WPCall := ⟨some pid, some "started", none, none, none⟩
  let o1 := write_pipeline_impl key (some pid) (some "started") none none none st net1
  let warns1 := if strContains "Error" o1.ret then [o1.ret] else []
  match funcRes with
  | .raise e =>
    let errCall : WPCall := ⟨some pid, some "error", some e.argsStr, none, none⟩
    let o2 := write_pipeline_impl key (some pid) (some "error") (some e.argsStr)
        none none o1.headers net2
    let warns2 := if strContains "Error" o2.ret then [o2.ret] else []
    ⟨.raise e, [startCall, errCall], warns1 ++ warns2, o2.headers⟩
  | .ret v =>
    let dag := parse_dag v
    let finCall : WPCall := ⟨some pid, some "finished", none, none, some dag⟩
    let o2 := write_pipeline_impl key (some pid) (some "finished") none none
        (some dag) o1.headers net2
    let warns2 := if strContains "Error" o2.ret then [o2.ret] else []
    ⟨.ret v, [startCall, finCall], warns1 ++ warns2, o2.headers⟩

/-! ### Sequences of write calls (for the shared-headers frame property) -/

/-- Arguments and environment of one `write_pipeline` call in a sequence. -/
structure WPArgs where
  key : Option String
  pipeline_id : Option String
  status : Option String
  log : Option String
  pipeline_name : Option String
  dag : Option String
  net : Except PyExc String
deriving Repr

/-- Run a sequence of `write_pipeline` calls, threading the module-level
`headers` dictionary through and collecting every request issued. -/
def run_writes : List WPArgs → Headers → Headers × List Request
  | [], st => (st, [])
  | a :: rest, st =>
    let o := write_pipeline_impl a.key a.pipeline_id a.status a.log
        a.pipeline_name a.dag st a.net
    let next := run_writes rest o.headers
    (next.1, o.requests ++ next.2)

/-! ### Module import -/

/-- The module-level statement executed at import time:
`get_pipeline('9f9e18e0-d027-4827-bd4d-1908f294bca2', False)`. -/
def module_init (parseNum : String → Option Int)
    (naturaltime strftime : Int → String)
    (key : Option String) (resp : GetResponse) : GPOut :=
  get_pipeline_impl parseNum naturaltime strftime key
    (some "9f9e18e0-d027-4827-bd4d-1908f294bca2") (some false) resp

/-! ## Helper lemmas -/

theorem strData_append (a b : String) : (a ++ b).data = a.data ++ b.data := by
  cases a; cases b; rfl

theorem isPrefixOf_append_left (a b r : List Char)
    (h : a.isPrefixOf b = true) : a.isPrefixOf (b ++ r) = true := by
  induction a generalizing b with
  | nil => simp [List.isPrefixOf]
  | cons x xs ih =>
    cases b with
    | nil => simp [List.isPrefixOf] at h
    | cons y ys =>
      simp only [List.isPrefixOf, List.cons_append, Bool.and_eq_true] at h ⊢
      exact ⟨h.1, ih ys h.2⟩

theorem listInfix_of_prefix (n h : List Char)
    (hp : n.isPrefixOf h = true) : listInfix n h = true := by
  cases h with
  | nil =>
    cases n with
    | nil => rfl
    | cons c t => simp [List.isPrefixOf] at hp
  | cons c t => simp [listInfix, hp]

theorem strContains_append_right (sub lit rest : String)
    (h : sub.data.isPrefixOf lit.data = true) :
    strContains sub (lit ++ rest) = true := by
  unfold strContains
  rw [strData_append]
  exact listInfix_of_prefix _ _ (isPrefixOf_append_left _ _ _ h)

theorem lookupH_dictInsert_self (k : String) (v : HVal) (d : Headers) :
    lookupH k (dictInsert k v d) = some v := by
  induction d with
  | nil => simp [dictInsert, lookupH]
  | cons p t ih =>
    by_cases hk : p.1 = k
    · simp [dictInsert, hk, lookupH]
    · simpa [dictInsert, hk, lookupH] using ih

theorem lookupH_dictInsert_ne (k k' : String) (hne : k ≠ k') (v : HVal)
    (d : Headers) : lookupH k (dictInsert k' v d) = lookupH k d := by
  have hne' : k' ≠ k := Ne.symm hne
  induction d with
  | nil => simp [dictInsert, lookupH, hne']
  | cons p t ih =>
    by_cases hk : p.1 = k'
    · simp [dictInsert, hk, lookupH, hne']
    · by_cases hk2 : p.1 = k <;> simp [dictInsert, hk, lookupH, hk2, hne, ih]

/-- A single `_write_pipeline` call never removes an existing `pipeline_id`
entry from the module-level `headers` dictionary, and every request it
issues carries that entry. -/
theorem write_pipeline_preserves_pid (key pid status log name dag : Option String)
    (st : Headers) (net : Except PyExc String) (v : HVal)
    (h : lookupH "pipeline_id" st = some v) :
    lookupH "pipeline_id" (write_pipeline_impl key pid status log name dag st net).headers
      = some v ∧
    ∀ r ∈ (write_pipeline_impl key pid status log name dag st net).requests,
      lookupH "pipeline_id" r.headers = some v := by
  have hne : ("pipeline_id" : String) ≠ "api_key" := by decide
  cases htk : truthy key with
  | false => simp [write_pipeline_impl, htk, h]
  | true =>
    cases htp : truthy pid with
    | false => simp [write_pipeline_impl, htk, htp, h]
    | true =>
      cases hts : truthy status with
      | false => simp [write_pipeline_impl, htk, htp, hts, h]
      | true =>
        have hpres : lookupH "pipeline_id"
            (dictInsert "api_key" (HVal.str (fmtOpt key)) st) = some v := by
          rw [lookupH_dictInsert_ne _ _ hne]; exact h
        cases net <;> simp [write_pipeline_impl, htk, htp, hts, hpres]

/-- A sequence of `write_pipeline` calls preserves an existing `pipeline_id`
header entry, and every request issued along the way carries it. -/
theorem run_writes_preserves_pid (calls : List WPArgs) (st : Headers) (v : HVal)
    (h : lookupH "pipeline_id" st = some v) :
    lookupH "pipeline_id" (run_writes calls st).1 = some v ∧
    ∀ r ∈ (run_writes calls st).2, lookupH "pipeline_id" r.headers = some v := by
  induction calls generalizing st with
  | nil => simpa [run_writes] using h
  | cons a rest ih =>
    have hw := write_pipeline_preserves_pid a.key a.pipeline_id a.status a.log
      a.pipeline_name a.dag st a.net v h
    have hr := ih _ hw.1
    refine ⟨by simpa [run_writes] using hr.1, ?_⟩
    intro r hrmem
    simp only [run_writes, List.mem_append] at hrmem
    rcases hrmem with hrmem | hrmem
    · exact hw.2 r hrmem
    · exact hr.2 r hrmem

/-! ## Claim theorems -/

/-- C1: a function wrapped by `cloud_wrapper()` that returns normally has its
return value passed through unchanged, and exactly two write-pipeline calls
occur: one with status `started` before the wrapped function runs and one
with status `finished` carrying `dag = parse_dag(result)` after it returns,
both with the same freshly generated pipeline identifier. -/
theorem cloud_wrapper_success_trace {α : Type} (payload : Bool) (pid : String)
    (v : α) (parse_dag : α → String) (key : Option String) (st : Headers)
    (net1 net2 : Except PyExc String) :
    (cloud_wrapper_run payload pid (.ret v) parse_dag key st net1 net2).result
      = .ret v ∧
    (cloud_wrapper_run payload pid (.ret v) parse_dag key st net1 net2).calls
      = [⟨some pid, some "started", none, none, none⟩,
         ⟨some pid, some "finished", none, none, some (parse_dag v)⟩] :=
  ⟨rfl, rfl⟩

/-- C2: a function wrapped by `cloud_wrapper()` that raises leads to exactly
one write-pipeline call with status `error` and log `str(e.args)` (after the
`started` call, and with the same pipeline identifier), the original
exception is re-raised unchanged, and no `finished` write occurs. -/
theorem cloud_wrapper_error_trace {α : Type} (payload : Bool) (pid : String)
    (e : PyExc) (parse_dag : α → String) (key : Option String) (st : Headers)
    (net1 net2 : Except PyExc String) :
    (cloud_wrapper_run payload pid (.raise e) parse_dag key st net1 net2).result
      = .raise e ∧
    (cloud_wrapper_run payload pid (.raise e) parse_dag key st net1 net2).calls
      = [⟨some pid, some "started", none, none, none⟩,
         ⟨some pid, some "error", some e.argsStr, none, none⟩] :=
  ⟨rfl, rfl⟩

/-- C3: `_write_pipeline` with a configured key and non-empty `pipeline_id`
and `status` returns the raw response body on success, returns the
`"Error fetching pipeline ..."` string embedding the exception on any
request failure (so no exception escapes), and the connection is opened and
closed on both paths. -/
theorem write_pipeline_no_raise (key pid status log name dag : Option String)
    (st : Headers) (hk : truthy key = true) (hp : truthy pid = true)
    (hs : truthy status = true) :
    (∀ b, (write_pipeline_impl key pid status log name dag st (.ok b)).ret = b) ∧
    (∀ e, (write_pipeline_impl key pid status log name dag st (.error e)).ret
        = "Error fetching pipeline " ++ e.argsStr) ∧
    (∀ net, (write_pipeline_impl key pid status log name dag st net).opened = true ∧
        (write_pipeline_impl key pid status log name dag st net).closed = true) := by
  refine ⟨fun b => ?_, fun e => ?_, fun net => ?_⟩
  · simp [write_pipeline_impl, hk, hp, hs]
  · simp [write_pipeline_impl, hk, hp, hs]
  · cases net <;> simp [write_pipeline_impl, hk, hp, hs]

/-- Witness for C3 at a concrete key, pipeline id, status and network
behaviour. -/
theorem write_pipeline_no_raise_witness :
    (write_pipeline_impl (some "k") (some "p") (some "started") none none none
        initial_headers (.ok "body")).ret = "body" ∧
    (write_pipeline_impl (some "k") (some "p") (some "started") none none none
        initial_headers (.error ⟨"OSError", "timed out"⟩)).ret
      = "Error fetching pipeline timed out" ∧
    (write_pipeline_impl (some "k") (some "p") (some "started") none none none
        initial_headers (.ok "body")).closed = true := by
  have h := write_pipeline_no_raise (some "k") (some "p") (some "started")
    none none none initial_headers (by decide) (by decide) (by decide)
  exact ⟨h.1 "body", h.2.1 ⟨"OSError", "timed out"⟩, (h.2.2 (.ok "body")).2⟩

/-- C6: `set_key` persists exactly `{cloud_key: key}` and confirms exactly
when the supplied key is non-empty and 22 characters long (a 22-character
string is in particular non-empty); any other key — absent, empty, or of a
different length — produces a warning and no configuration write. -/
theorem set_key_spec (s : String) :
    (s.length = 22 → set_key_impl (some s) = ⟨[[("cloud_key", s)]], false, true⟩) ∧
    (s.length ≠ 22 → set_key_impl (some s) = ⟨[], true, false⟩) ∧
    set_key_impl none = ⟨[], true, false⟩ := by
  refine ⟨fun h22 => ?_, fun hne => ?_, rfl⟩
  · have hs : (s == "") = false := by
      cases hb : s == "" with
      | false => rfl
      | true =>
        have : s = "" := by rwa [beq_iff_eq] at hb
        subst this
        exact absurd h22 (by decide)
    simp [set_key_impl, hs, h22]
  · cases hb : s == "" with
    | false => simp [set_key_impl, hb, hne]
    | true => simp [set_key_impl, hb]

/-- Witness for C6: a valid 22-character key is stored and confirmed; a
short key is rejected with no write. -/
theorem set_key_spec_witness :
    set_key_impl (some "ABCDEFGHIJKLMNOPQRSTUV")
      = ⟨[[("cloud_key", "ABCDEFGHIJKLMNOPQRSTUV")]], false, true⟩ ∧
    set_key_impl (some "short") = ⟨[], true, false⟩ :=
  ⟨(set_key_spec "ABCDEFGHIJKLMNOPQRSTUV").1 (by decide),
   (set_key_spec "short").2.1 (by decide)⟩

/-- C7: `get_pipeline` with no configured key returns (does not raise) a
string containing `"No cloud API Key"`, opens no connection and issues no
network request. -/
theorem get_pipeline_no_key (parseNum : String → Option Int)
    (naturaltime strftime : Int → String) (key pid : Option String)
    (verbose : Option Bool) (resp : GetResponse) (hk : truthy key = false) :
    (get_pipeline_impl parseNum naturaltime strftime key pid verbose resp).requests
      = [] ∧
    (get_pipeline_impl parseNum naturaltime strftime key pid verbose resp).result
      = .ret (.msg ("No cloud API Key was found: " ++ fmtOpt key)) ∧
    strContains "No cloud API Key" ("No cloud API Key was found: " ++ fmtOpt key)
      = true ∧
    (get_pipeline_impl parseNum naturaltime strftime key pid verbose resp).opened
      = false := by
  refine ⟨?_, ?_, ?_, ?_⟩
  · simp [get_pipeline_impl, hk]
  · simp [get_pipeline_impl, hk]
  · have hsplit : ("No cloud API Key was found: " ++ fmtOpt key)
        = "No cloud API Key" ++ (" was found: " ++ fmtOpt key) := by
      cases key with
      | none => rfl
      | some s => cases s; rfl
    rw [hsplit]
    exact strContains_append_right _ _ _ (by decide)
  · simp [get_pipeline_impl, hk]

/-- Witness for C7 at `key = none`. -/
theorem get_pipeline_no_key_witness :
    (get_pipeline_impl (fun _ => none) (fun _ => "") (fun _ => "")
        none none none (.badJson "x")).requests = [] ∧
    (get_pipeline_impl (fun _ => none) (fun _ => "") (fun _ => "")
        none none none (.badJson "x")).result
      = .ret (.msg ("No cloud API Key was found: " ++ fmtOpt none)) ∧
    strContains "No cloud API Key" ("No cloud API Key was found: " ++ fmtOpt none)
      = true ∧
    (get_pipeline_impl (fun _ => none) (fun _ => "") (fun _ => "")
        none none none (.badJson "x")).opened = false :=
  get_pipeline_no_key (fun _ => none) (fun _ => "") (fun _ => "")
    none none none (.badJson "x") (by decide)

/-- C4: in `get_pipeline` with a configured key, a JSON parse failure yields
a returned string embedding the raw response body, any other exception
raised during the request propagates unhandled, and the connection (opened
in every such run) is closed in every case. -/
theorem get_pipeline_error_paths (parseNum : String → Option Int)
    (naturaltime strftime : Int → String) (key pid : Option String)
    (verbose : Option Bool) (hk : truthy key = true) :
    (∀ raw, (get_pipeline_impl parseNum naturaltime strftime key pid verbose
        (.badJson raw)).result = .ret (.msg ("Issue fetching pipeline " ++ raw))) ∧
    (∀ e, (get_pipeline_impl parseNum naturaltime strftime key pid verbose
        (.transport e)).result = .raise e) ∧
    (∀ resp, (get_pipeline_impl parseNum naturaltime strftime key pid verbose
        resp).opened = true ∧
      (get_pipeline_impl parseNum naturaltime strftime key pid verbose
        resp).closed = true) := by
  refine ⟨fun raw => ?_, fun e => ?_, fun resp => ?_⟩
  · simp [get_pipeline_impl, hk]
  · simp [get_pipeline_impl, hk]
  · cases resp <;> simp [get_pipeline_impl, hk]

/-- Witness for C4 at a concrete key and responses. -/
theorem get_pipeline_error_paths_witness :
    (get_pipeline_impl (fun _ => none) (fun _ => "") (fun _ => "") (some "k")
        none none (.badJson "not json")).result
      = .ret (.msg ("Issue fetching pipeline " ++ "not json")) ∧
    (get_pipeline_impl (fun _ => none) (fun _ => "") (fun _ => "") (some "k")
        none none (.transport ⟨"OSError", "timed out"⟩)).result
      = .raise ⟨"OSError", "timed out"⟩ ∧
    (get_pipeline_impl (fun _ => none) (fun _ => "") (fun _ => "") (some "k")
        none none (.transport ⟨"OSError", "timed out"⟩)).closed = true := by
  have h := get_pipeline_error_paths (fun _ => none) (fun _ => "") (fun _ => "")
    (some "k") none none (by decide)
  exact ⟨h.1 "not json", h.2.1 ⟨"OSError", "timed out"⟩,
    (h.2.2 (.transport ⟨"OSError", "timed out"⟩)).2⟩

/-- C5: on a successfully parsed response, `get_pipeline` replaces each
record's `updated` field through `get_last_run`: a null value becomes
`"Has not been run"`, a numeric value becomes
`"{relative-time} ({absolute-date})"`, a string that parses as a number is
likewise formatted, and a string that does not parse is kept unchanged. -/
theorem get_pipeline_updated_humanized (parseNum : String → Option Int)
    (naturaltime strftime : Int → String) (key pid : Option String)
    (verbose : Option Bool) (rs : List PRec) (hk : truthy key = true) :
    (get_pipeline_impl parseNum naturaltime strftime key pid verbose
        (.records rs)).result
      = .ret (.pipelines (rs.map fun r =>
          { r with updated := get_last_run parseNum naturaltime strftime r.updated })) ∧
    get_last_run parseNum naturaltime strftime .null = .str "Has not been run" ∧
    (∀ n, get_last_run parseNum naturaltime strftime (.num n)
        = .str (naturaltime n ++ " (" ++ strftime n ++ ")")) ∧
    (∀ s n, parseNum s = some n → get_last_run parseNum naturaltime strftime (.str s)
        = .str (naturaltime n ++ " (" ++ strftime n ++ ")")) ∧
    (∀ s, parseNum s = none →
        get_last_run parseNum naturaltime strftime (.str s) = .str s) := by
  refine ⟨?_, rfl, fun n => rfl, fun s n h => ?_, fun s h => ?_⟩
  · simp [get_pipeline_impl, hk]
  · simp [get_last_run, h]
  · simp [get_last_run, h]

/-- Witness for C5 on a concrete record list covering the null, numeric,
parseable-string and unparseable-string cases. -/
theorem get_pipeline_updated_humanized_witness :
    (get_pipeline_impl (fun s => if s = "5" then some 5 else none)
        (fun n => "rel" ++ toString n) (fun n => "abs" ++ toString n)
        (some "k") none none
        (.records [⟨.null, []⟩, ⟨.num 3, []⟩, ⟨.str "5", []⟩, ⟨.str "x", []⟩])).result
      = .ret (.pipelines
          [⟨.str "Has not been run", []⟩, ⟨.str "rel3 (abs3)", []⟩,
           ⟨.str "rel5 (abs5)", []⟩, ⟨.str "x", []⟩]) ∧
    get_last_run (fun s => if s = "5" then some 5 else none)
        (fun n => "rel" ++ toString n) (fun n => "abs" ++ toString n)
        (.str "x") = .str "x" := by
  have h := get_pipeline_updated_humanized (fun s => if s = "5" then some 5 else none)
    (fun n => "rel" ++ toString n) (fun n => "abs" ++ toString n)
    (some "k") none none
    [⟨.null, []⟩, ⟨.num 3, []⟩, ⟨.str "5", []⟩, ⟨.str "x", []⟩] (by decide)
  refine ⟨?_, h.2.2.2.2 "x" (by decide)⟩
  rw [h.1]
  rfl

/-- C8: with a configured key, `_write_pipeline` with an empty `pipeline_id`
returns a string containing `"No input pipeline_id"`, with a non-empty
`pipeline_id` but empty `status` a string containing
`"No input pipeline status"`, and `delete_pipeline` with an empty
`pipeline_id` a string containing `"No input pipeline_id"`; in each case no
network request is issued. -/
theorem validation_no_network (key pid status log name dag : Option String)
    (st : Headers) (net : Except PyExc String) (hk : truthy key = true) :
    (truthy pid = false →
      (write_pipeline_impl key pid status log name dag st net).requests = [] ∧
      strContains "No input pipeline_id"
        (write_pipeline_impl key pid status log name dag st net).ret = true) ∧
    (truthy pid = true → truthy status = false →
      (write_pipeline_impl key pid status log name dag st net).requests = [] ∧
      strContains "No input pipeline status"
        (write_pipeline_impl key pid status log name dag st net).ret = true) ∧
    (truthy pid = false →
      (delete_pipeline_impl key pid st net).requests = [] ∧
      strContains "No input pipeline_id"
        (delete_pipeline_impl key pid st net).ret = true) := by
  have hid : ∀ k : Option String,
      strContains "No input pipeline_id" ("No input pipeline_id: " ++ fmtOpt k)
        = true := by
    intro k
    have hsplit : ("No input pipeline_id: " ++ fmtOpt k)
        = "No input pipeline_id" ++ (": " ++ fmtOpt k) := by
      cases k with
      | none => rfl
      | some s => cases s; rfl
    rw [hsplit]
    exact strContains_append_right _ _ _ (by decide)
  refine ⟨fun hp => ?_, fun hp hs => ?_, fun hp => ?_⟩
  · constructor
    · simp [write_pipeline_impl, hk, hp]
    · have hret : (write_pipeline_impl key pid status log name dag st net).ret
          = "No input pipeline_id: " ++ fmtOpt key := by
        simp [write_pipeline_impl, hk, hp]
      rw [hret]
      exact hid key
  · constructor
    · simp [write_pipeline_impl, hk, hp, hs]
    · have hret : (write_pipeline_impl key pid status log name dag st net).ret
          = "No input pipeline status: " ++ fmtOpt key := by
        simp [write_pipeline_impl, hk, hp, hs]
      rw [hret]
      have hsplit : ("No input pipeline status: " ++ fmtOpt key)
          = "No input pipeline status" ++ (": " ++ fmtOpt key) := by
        cases key with
        | none => rfl
        | some s => cases s; rfl
      rw [hsplit]
      exact strContains_append_right _ _ _ (by decide)
  · constructor
    · simp [delete_pipeline_impl, hk, hp]
    · have hret : (delete_pipeline_impl key pid st net).ret
          = "No input pipeline_id: " ++ fmtOpt key := by
        simp [delete_pipeline_impl, hk, hp]
      rw [hret]
      exact hid key

/-- Witness for C8 at concrete inputs: empty pipeline id for write and
delete, then empty status. -/
theorem validation_no_network_witness :
    ((write_pipeline_impl (some "k") (some "") (some "started") none none none
        initial_headers (.ok "b")).requests = [] ∧
      strContains "No input pipeline_id"
        (write_pipeline_impl (some "k") (some "") (some "started") none none none
          initial_headers (.ok "b")).ret = true) ∧
    ((write_pipeline_impl (some "k") (some "p") none none none none
        initial_headers (.ok "b")).requests = [] ∧
      strContains "No input pipeline status"
        (write_pipeline_impl (some "k") (some "p") none none none none
          initial_headers (.ok "b")).ret = true) ∧
    ((delete_pipeline_impl (some "k") none initial_headers (.ok "b")).requests = [] ∧
      strContains "No input pipeline_id"
        (delete_pipeline_impl (some "k") none initial_headers (.ok "b")).ret
        = true) :=
  ⟨(validation_no_network (some "k") (some "") (some "started") none none none
      initial_headers (.ok "b") (by decide)).1 (by decide),
   (validation_no_network (some "k") (some "p") none none none none
      initial_headers (.ok "b") (by decide)).2.1 (by decide) (by decide),
   (validation_no_network (some "k") none none none none none
      initial_headers (.ok "b") (by decide)).2.2 (by decide)⟩

/-- C9: a `delete_pipeline` call that passes validation stores the given
`pipeline_id` into the shared module-level `headers` dictionary; any
sequence of subsequent `write_pipeline` calls never removes it, and every
request those calls issue carries the stale `pipeline_id` header entry. -/
theorem delete_leaks_pipeline_id_header (key pid : Option String) (st : Headers)
    (net : Except PyExc String) (calls : List WPArgs)
    (hk : truthy key = true) (hp : truthy pid = true) :
    lookupH "pipeline_id" (delete_pipeline_impl key pid st net).headers
      = some (.str (fmtOpt pid)) ∧
    lookupH "pipeline_id"
        (run_writes calls (delete_pipeline_impl key pid st net).headers).1
      = some (.str (fmtOpt pid)) ∧
    ∀ r ∈ (run_writes calls (delete_pipeline_impl key pid st net).headers).2,
      lookupH "pipeline_id" r.headers = some (.str (fmtOpt pid)) := by
  have hdel : lookupH "pipeline_id" (delete_pipeline_impl key pid st net).headers
      = some (.str (fmtOpt pid)) := by
    cases net <;>
      simp [delete_pipeline_impl, hk, hp, lookupH_dictInsert_self]
  have hrun := run_writes_preserves_pid calls
    (delete_pipeline_impl key pid st net).headers (.str (fmtOpt pid)) hdel
  exact ⟨hdel, hrun.1, hrun.2⟩

/-- Witness for C9: after a concrete delete, a subsequent write call's POST
request still carries the stale `pipeline_id` header. -/
theorem delete_leaks_pipeline_id_header_witness :
    lookupH "pipeline_id"
        (delete_pipeline_impl (some "k") (some "p") initial_headers
          (.ok "b")).headers = some (.str "p") ∧
    lookupH "pipeline_id"
        (run_writes [⟨some "k", some "q", some "started", none, none, none, .ok "r"⟩]
          (delete_pipeline_impl (some "k") (some "p") initial_headers
            (.ok "b")).headers).1 = some (.str "p") := by
  have h := delete_leaks_pipeline_id_header (some "k") (some "p") initial_headers
    (.ok "b") [⟨some "k", some "q", some "started", none, none, none, .ok "r"⟩]
    (by decide) (by decide)
  exact ⟨h.1, h.2.1⟩

/-- C10: the module-level statement run at import time performs, whenever a
key is configured, exactly one GET request against the pipelines resource
with the hard-coded pipeline identifier in its headers (and, `verbose` being
`False`, no verbose header). -/
theorem module_init_performs_fetch (parseNum : String → Option Int)
    (naturaltime strftime : Int → String) (key : Option String)
    (resp : GetResponse) (hk : truthy key = true) :
    (module_init parseNum naturaltime strftime key resp).requests
      = [⟨"GET", CLOUD_APP_URL, PIPELINES_RESOURCE,
          [("api_key", .str (fmtOpt key)),
           ("pipeline_id", .str "9f9e18e0-d027-4827-bd4d-1908f294bca2")], none⟩] := by
  cases key with
  | none => simp [truthy] at hk
  | some s =>
    simp only [truthy] at hk
    cases resp <;>
      simp [module_init, get_pipeline_impl, truthy, dictInsert, fmtOpt, hk]

/-- Witness for C10 at a concrete key and response. -/
theorem module_init_performs_fetch_witness :
    (module_init (fun _ => none) (fun _ => "") (fun _ => "") (some "k")
        (.records [])).requests
      = [⟨"GET", CLOUD_APP_URL, PIPELINES_RESOURCE,
          [("api_key", .str "k"),
           ("pipeline_id", .str "9f9e18e0-d027-4827-bd4d-1908f294bca2")], none⟩] :=
  module_init_performs_fetch (fun _ => none) (fun _ => "") (fun _ => "")
    (some "k") (.records []) (by decide)

end Cloud
